import Mathlib

/-!
# Verification of the wdbots ecoregions geospatial integration pipeline

This file gives a shallow embedding of the core data-processing steps of the
wdbots repository (the `ecoregions` notebook, in its original linear form and
its refactored function-suite form, together with the political-boundaries
notebook) and proves, or refutes, the stated properties of the pipeline.

Modelling conventions:
* a geodataframe is a `List` of structure values, one structure field per
  retained column;
* a geometry is abstracted to a `Finset ℕ` of atomic cells, so that geometric
  union is `Finset` union and `ST_Intersects` is nonempty intersection — the
  only geometric facts the proofs use are that union and intersection are the
  set-theoretic ones;
* the pandas `geom_type` string of a row is carried as an explicit field,
  since the partitioning code dispatches on that string;
* missing values (`None` / SQL `NULL`) are `Option.none`; the pandas `NaN`
  sentinel is a distinct constructor of an explicit value type where the
  distinction matters;
* Python's `list(set(xs))` is modelled as `List.dedup` (first-occurrence
  order; the properties proved about it are order-insensitive), and pandas
  `groupby`/`dissolve` sorts its group keys, modelled with `Finset.sort`.
-/

namespace Wdbots

/-! ## Geometry partitioner (`prep_source_for_pg`)

From the refactored suite of `Ecoregions Data Processing.ipynb`:

    def prep_source_for_pg(combined_dataset):
        dataset_multi = combined_dataset.apply(copy.deepcopy)
        dataset_poly = combined_dataset.apply(copy.deepcopy)
        dataset_multi.drop(
            dataset_multi[dataset_multi.geometry.geom_type == "Polygon"].index,
            inplace=True)
        dataset_poly.drop(
            dataset_poly[dataset_poly.geometry.geom_type == "MultiPolygon"].index,
            inplace=True)
        ...
        return dataset_multi, dataset_poly

(the trailing WKT conversion only re-encodes the geometry column).  The same
drop pattern appears in the original notebook cells and, for the boundaries
dataset, in the political-boundaries notebook (`boundaries_multi` /
`boundaries`). -/

/-- A row of a combined geodataframe as seen by the partitioner and the
intersection engine: an identifying column (`wikidata_id` for boundaries,
`contextual_identifier` for ecoregions), the shapely `geom_type` string of
its geometry, and the geometry itself (abstracted to a set of atomic
cells). -/
structure PgRow where
  id : String
  geom_type : String
  geom : Finset ℕ
deriving DecidableEq

/-- `prep_source_for_pg`: split one collection into
(`dataset_multi`, `dataset_poly`).  `dataset_multi` drops the rows whose
`geom_type` is `"Polygon"`; `dataset_poly` drops the rows whose `geom_type`
is `"MultiPolygon"`.  All other columns of a surviving row are kept
unchanged. -/
def prep_source_for_pg (combined_dataset : List PgRow) : List PgRow × List PgRow :=
  (combined_dataset.filter (fun r => r.geom_type ≠ "Polygon"),
   combined_dataset.filter (fun r => r.geom_type ≠ "MultiPolygon"))

/-- A concrete row whose geometry is neither a polygon nor a multipolygon. -/
def pointRow : PgRow := { id := "pt", geom_type := "Point", geom := {0} }

/-! ## Intersection engine (the PostGIS `intersections` view)

The original notebook documents the SQL that builds the view:

    SELECT b.name, b.wikidata_id, e.contextual_identifier
    FROM boundaries_m AS b, ecoregions_m AS e WHERE ST_Intersects(b.geom, e.geom)
    UNION  ... boundaries_m × ecoregions_p ...
    UNION  ... boundaries_p × ecoregions_m ...
    UNION  ... boundaries_p × ecoregions_p ...

The `_m` / `_p` tables are exactly the two subsets produced by the
partitioning step above, and SQL `UNION` deduplicates the combined rows.
`ST_Intersects` holds when the two geometries share any point, which in the
cell-set abstraction is nonempty intersection of the two cell sets. -/

/-- `ST_Intersects` in the cell-set abstraction of geometry: the two
geometries share at least one atomic cell. -/
def st_intersects (a b : Finset ℕ) : Bool := a ∩ b ≠ ∅

/-- One cross-join arm of the SQL view: all (boundary id, region id) pairs of
rows whose geometries intersect, in table order. -/
def intersect_pairs (bs rs : List PgRow) : List (String × String) :=
  bs.flatMap fun b =>
    (rs.filter fun r => st_intersects b.geom r.geom).map fun r => (b.id, r.id)

/-- The `intersections` view: split both collections with the partitioner,
take the four cross-join arms, union them and deduplicate (SQL `UNION`). -/
def intersections (bs rs : List PgRow) : List (String × String) :=
  let bsplit := prep_source_for_pg bs
  let rsplit := prep_source_for_pg rs
  (intersect_pairs bsplit.1 rsplit.1 ++ intersect_pairs bsplit.1 rsplit.2 ++
   intersect_pairs bsplit.2 rsplit.1 ++ intersect_pairs bsplit.2 rsplit.2).dedup

theorem st_intersects_comm (a b : Finset ℕ) :
    st_intersects a b = st_intersects b a := by
  simp [st_intersects, Finset.inter_comm]

theorem mem_intersect_pairs {bs rs : List PgRow} {p q : String} :
    (p, q) ∈ intersect_pairs bs rs ↔
      ∃ b ∈ bs, ∃ r ∈ rs, st_intersects b.geom r.geom ∧ b.id = p ∧ r.id = q := by
  simp only [intersect_pairs, List.mem_flatMap, List.mem_map, List.mem_filter]
  constructor
  · rintro ⟨b, hb, r, ⟨hr, hint⟩, hpq⟩
    exact ⟨b, hb, r, hr, hint, congrArg Prod.fst hpq, congrArg Prod.snd hpq⟩
  · rintro ⟨b, hb, r, hr, hint, hp, hq⟩
    exact ⟨b, hb, r, ⟨hr, hint⟩, by simp [hp, hq]⟩

/-- Every row of a collection lands in at least one of the two partitioner
subsets, and a pair produced from the subsets comes from the collection. -/
theorem mem_intersections {bs rs : List PgRow} {p q : String} :
    (p, q) ∈ intersections bs rs ↔
      ∃ b ∈ bs, ∃ r ∈ rs, st_intersects b.geom r.geom ∧ b.id = p ∧ r.id = q := by
  simp only [intersections, List.mem_dedup, List.mem_append, mem_intersect_pairs,
    prep_source_for_pg, List.mem_filter]
  constructor
  · rintro (((⟨b, ⟨hb, _⟩, r, ⟨hr, _⟩, h⟩ | ⟨b, ⟨hb, _⟩, r, ⟨hr, _⟩, h⟩) |
        ⟨b, ⟨hb, _⟩, r, ⟨hr, _⟩, h⟩) | ⟨b, ⟨hb, _⟩, r, ⟨hr, _⟩, h⟩) <;>
      exact ⟨b, hb, r, hr, h⟩
  · rintro ⟨b, hb, r, hr, h⟩
    by_cases hbp : b.geom_type = "Polygon" <;> by_cases hrp : r.geom_type = "Polygon"
    · exact Or.inr ⟨b, ⟨hb, by simp [hbp]⟩, r, ⟨hr, by simp [hrp]⟩, h⟩
    · exact Or.inl (Or.inr ⟨b, ⟨hb, by simp [hbp]⟩, r, ⟨hr, by simp [hrp]⟩, h⟩)
    · exact Or.inl (Or.inl (Or.inr ⟨b, ⟨hb, by simp [hbp]⟩, r, ⟨hr, by simp [hrp]⟩, h⟩))
    · exact Or.inl (Or.inl (Or.inl ⟨b, ⟨hb, by simp [hbp]⟩, r, ⟨hr, by simp [hrp]⟩, h⟩))

/-- C8: the intersection engine's result is symmetric in its two collection
arguments: `(p, q)` is a produced (boundary-id, region-id) pair of
`intersections bs rs` exactly when the run with the roles swapped produces
the pair `(q, p)` — the set of id pairs does not depend on which collection
plays the boundary role. -/
theorem intersections_symm (bs rs : List PgRow) (p q : String) :
    (p, q) ∈ intersections bs rs ↔ (q, p) ∈ intersections rs bs := by
  rw [mem_intersections, mem_intersections]
  constructor
  · rintro ⟨b, hb, r, hr, hint, hp, hq⟩
    exact ⟨r, hr, b, hb, by rw [st_intersects_comm]; exact hint, hq, hp⟩
  · rintro ⟨r, hr, b, hb, hint, hq, hp⟩
    exact ⟨b, hb, r, hr, by rw [st_intersects_comm]; exact hint, hp, hq⟩

/-! ## Hierarchical aggregator (`combine_geometries`)

From the refactored suite:

    def combine_geometries(combined_source):
        return combined_source.dissolve(by='contextual_identifier')

(the original notebook runs the same
`ecoregions.dissolve(by='contextual_identifier')` inline).  Pandas/geopandas
`dissolve` groups the rows by the key column (group keys sorted, default
`sort=True`), merges each group's geometries with a geometric union, and
aggregates every other column with `first` (the group's first row in input
order), producing exactly one output row per distinct key. -/

/-- A row of the combined ecoregion geodataframe as seen by the aggregator:
the grouping key, the geometry (a set of atomic cells, so that geometric
union is set union), and the remaining attribute columns (`source`,
`common_name`, `part_of_identifiers`, …) collapsed into one field, since
`dissolve` treats them uniformly with the `first` aggregation. -/
structure DRow where
  contextual_identifier : String
  geom : Finset ℕ
  attrs : String
deriving DecidableEq

/-- `combine_geometries`: dissolve by `contextual_identifier`.  One output
row per distinct key, keys in sorted order; the row's geometry is the union
of the group's geometries and its attributes are the group's first row's
attributes. -/
def combine_geometries (combined_source : List DRow) : List DRow :=
  ((combined_source.map DRow.contextual_identifier).toFinset.sort (· ≤ ·)).map
    fun k =>
      let group := combined_source.filter fun r => r.contextual_identifier = k
      { contextual_identifier := k
        geom := (group.map DRow.geom).foldr (· ∪ ·) ∅
        attrs := ((group.head?).map DRow.attrs).getD "" }

/-- C6: after `combine_geometries`, every contextual identifier occurs in
exactly one output row: the output's key column has no duplicates, the
number of output rows equals the number of distinct keys of the input, and
the output keys are exactly the input keys. -/
theorem combine_geometries_unique_keys (combined_source : List DRow) :
    ((combine_geometries combined_source).map DRow.contextual_identifier).Nodup ∧
    (combine_geometries combined_source).length =
      (combined_source.map DRow.contextual_identifier).toFinset.card ∧
    ∀ k, k ∈ (combine_geometries combined_source).map DRow.contextual_identifier ↔
      k ∈ combined_source.map DRow.contextual_identifier := by
  have hmap : (combine_geometries combined_source).map DRow.contextual_identifier =
      (combined_source.map DRow.contextual_identifier).toFinset.sort (· ≤ ·) := by
    simp [combine_geometries, List.map_map, Function.comp_def]
  refine ⟨?_, ?_, ?_⟩
  · rw [hmap]; exact Finset.sort_nodup _ _
  · simp [combine_geometries]
  · intro k
    rw [hmap]
    simp [Finset.mem_sort]

/-- In a collection whose key column has no duplicates, filtering for a
member row's key yields exactly that row. -/
theorem filter_key_singleton {rows : List DRow} {r : DRow}
    (h : (rows.map DRow.contextual_identifier).Nodup) (hr : r ∈ rows) :
    rows.filter (fun x => x.contextual_identifier = r.contextual_identifier) = [r] := by
  induction rows with
  | nil => cases hr
  | cons a t ih =>
    simp only [List.map_cons, List.nodup_cons] at h
    rcases List.mem_cons.mp hr with rfl | hrt
    · rw [List.filter_cons_of_pos (by simp)]
      have ht : t.filter (fun x => x.contextual_identifier = r.contextual_identifier) = [] := by
        refine List.filter_eq_nil_iff.mpr fun x hx hax => ?_
        exact h.1 (List.mem_map.mpr ⟨x, hx, by simpa using hax⟩)
      rw [ht]
    · have hne : ¬ (a.contextual_identifier = r.contextual_identifier) := fun hax =>
        h.1 (List.mem_map.mpr ⟨r, hrt, hax.symm⟩)
      rw [List.filter_cons_of_neg (by simpa using hne)]
      exact ih h.2 hrt

/-- C7: dissolve is idempotent — applied to a collection that already has
exactly one row per `contextual_identifier`, `combine_geometries` returns
the same collection (the same rows; pandas sorts the group keys, so the
output order is the key order while the spec leaves row order arbitrary). -/
theorem combine_geometries_idempotent (combined_source : List DRow)
    (h : (combined_source.map DRow.contextual_identifier).Nodup) :
    (combine_geometries combined_source).Perm combined_source := by
  have hkeys :
      (((combined_source.map DRow.contextual_identifier).toFinset.sort (· ≤ ·)).Perm
        (combined_source.map DRow.contextual_identifier)) :=
    (Finset.sort_perm_toList _ _).trans (List.toFinset_toList h)
  unfold combine_geometries
  refine (hkeys.map _).trans ?_
  rw [List.map_map]
  have hmap : combined_source.map
      ((fun k =>
        let group := combined_source.filter fun r => r.contextual_identifier = k
        ({ contextual_identifier := k
           geom := (group.map DRow.geom).foldr (· ∪ ·) ∅
           attrs := ((group.head?).map DRow.attrs).getD "" } : DRow)) ∘
        DRow.contextual_identifier) = combined_source := by
    conv_rhs => rw [← List.map_id combined_source]
    refine List.map_congr_left fun r hr => ?_
    have hsing := filter_key_singleton h hr
    have hfind :
        combined_source.find?
          (fun x => x.contextual_identifier = r.contextual_identifier) = some r := by
      simpa using congrArg List.head? hsing
    simp [Function.comp_apply, hsing, hfind]
  rw [hmap]

/-- A two-row collection that already has one row per key. -/
def dissolvedRows : List DRow :=
  [{ contextual_identifier := "NA_L1CODE:2", geom := {1}, attrs := "a" },
   { contextual_identifier := "NA_L1CODE:1", geom := {2}, attrs := "b" }]

/-- Witness for C7 at a concrete already-dissolved collection. -/
theorem combine_geometries_idempotent_witness :
    (dissolvedRows.map DRow.contextual_identifier).Nodup ∧
    (combine_geometries dissolvedRows).Perm dissolvedRows :=
  ⟨by decide, combine_geometries_idempotent dissolvedRows (by decide)⟩

/-! ## Serialization of `part_of_identifiers`

`clean_synth_df` writes the ancestor identifiers of a record as one
`;`-delimited string (f-strings such as
`f"NA_L1CODE:{row.NA_L1CODE};NA_L2CODE:{row.NA_L2CODE}"`); the top level has
no `part_of_identifiers` column at all, which surfaces as SQL `NULL` /
`None` downstream.  `recombine_ecoregions` parses the column back with

    df_ecoregions['part_of_identifiers'].apply(
        lambda x: x.split(';') if x is not None else x)

Python's `";".join` and `str.split(';')` are modelled at the character level
with `List.intercalate` and `List.splitOn`. -/

/-- `";".join(ids)`: the serialized `part_of_identifiers` column value of a
record whose ordered ancestor identifiers are `ids`. -/
def join_part_of (ids : List String) : String :=
  String.mk (([';'] : List Char).intercalate (ids.map String.data))

/-- `x.split(';')`: Python splitting of a serialized value on the `;`
delimiter. -/
def split_part_of (s : String) : List String :=
  (s.data.splitOn ';').map String.mk

/-- The serialization side for an optional ancestor sequence (`None` for a
record with no ancestors). -/
def serialize_part_of : Option (List String) → Option String
  | none => none
  | some ids => some (join_part_of ids)

/-- The parse in `recombine_ecoregions`:
`x.split(';') if x is not None else x`. -/
def parse_part_of : Option String → Option (List String)
  | none => none
  | some s => some (split_part_of s)

/-- C5: serializing and parsing `part_of_identifiers` round-trips.  For
every nonempty ordered sequence of ancestor identifiers none of which
contains the `;` delimiter, joining with `;` and splitting on `;` recovers
the sequence; a record with no ancestors serialized as `None` parses back to
`None`.  (A record with ancestors always has at least one, so the join is
only ever applied to nonempty sequences; the no-ancestor case is the `None`
branch.) -/
theorem part_of_identifiers_round_trip :
    (∀ ids : List String, ids ≠ [] → (∀ s ∈ ids, (';' : Char) ∉ s.data) →
      parse_part_of (serialize_part_of (some ids)) = some ids) ∧
    parse_part_of (serialize_part_of none) = none := by
  refine ⟨fun ids hne hsep => ?_, rfl⟩
  simp only [serialize_part_of, parse_part_of, split_part_of, join_part_of,
    Option.some.injEq]
  rw [List.splitOn_intercalate (ids.map String.data) ';'
    (fun l hl => by
      rcases List.mem_map.mp hl with ⟨s, hs, rfl⟩
      exact hsep s hs)
    (by simpa using hne)]
  rw [List.map_map]
  calc ids.map (String.mk ∘ String.data)
      = ids.map id := List.map_congr_left fun s _ => rfl
    _ = ids := List.map_id ids

/-- Witness for C5 at the concrete sequence `["A", "B", "C"]`. -/
theorem part_of_identifiers_round_trip_witness :
    parse_part_of (serialize_part_of (some ["A", "B", "C"])) = some ["A", "B", "C"] :=
  part_of_identifiers_round_trip.1 ["A", "B", "C"] (by decide) (by decide)

/-! ## Result assembler (`boundary_intersects_list`, `recombine_ecoregions`)

The original notebook defines

    def boundary_intersects_list(contextual_identifier):
        intersects = df_intersections.loc[
            df_intersections.contextual_identifier == contextual_identifier
        ]["wikidata_id"].to_list()
        return intersects

and the refactored suite replaces it by

    def boundary_intersects_list(contextual_identifier, intersect_type="admin_id"):
        intersecting_ids = df_intersections.loc[
            df_intersections.contextual_identifier == contextual_identifier
        ][intersect_type].to_list()
        intersecting_ids = list(set(intersecting_ids))
        return intersecting_ids

`df_intersections` is the module-level intersections table, taken here as an
explicit argument; the column-name string `intersect_type` becomes a field
selector.  -/

/-- A row of the `intersections` table.  The admin boundary's knowledge-base
identifier column is named `wikidata_id` in the original notebook's table
and `admin_id` in the refactored pipeline's table; both denote the same
value and are carried here as the single field `admin_id`. -/
structure XRow where
  boundary_name : String
  admin_id : String
  country_id : String
  contextual_identifier : String
deriving DecidableEq

/-- The original notebook's per-region intersect lookup: filter the table by
`contextual_identifier` and list the identifier column's values (no
deduplication). -/
def boundary_intersects_list_orig (df_intersections : List XRow)
    (contextual_identifier : String) : List String :=
  (df_intersections.filter
    (fun t => t.contextual_identifier = contextual_identifier)).map XRow.admin_id

/-- The refactored suite's `boundary_intersects_list`: filter the table by
`contextual_identifier`, list the values of the selected identifier column,
and deduplicate them through `list(set(...))`. -/
def boundary_intersects_list (df_intersections : List XRow)
    (contextual_identifier : String) (intersect_type : XRow → String) : List String :=
  ((df_intersections.filter
    (fun t => t.contextual_identifier = contextual_identifier)).map intersect_type).dedup

/-- An intersections table in which one region meets two boundary rows that
carry the same admin identifier. -/
def dupTable : List XRow :=
  [{ boundary_name := "A", admin_id := "Q1", country_id := "Q2",
     contextual_identifier := "US_L3CODE:7" },
   { boundary_name := "B", admin_id := "Q1", country_id := "Q2",
     contextual_identifier := "US_L3CODE:7" }]

/-- C9 counterexample: on `dupTable` the original lookup returns
`["Q1", "Q1"]` while the refactored lookup returns `["Q1"]`, so the two do
not return equal lists for every table and identifier. -/
theorem boundary_intersects_list_not_equal :
    boundary_intersects_list_orig dupTable "US_L3CODE:7" ≠
      boundary_intersects_list dupTable "US_L3CODE:7" XRow.admin_id := by
  decide

/-- C9 (amended): for every intersections table and every contextual
identifier, the refactored `boundary_intersects_list` returns a
duplicate-free list with exactly the same members as the original lookup's
list — the two agree as sets of identifiers, though they may differ in
multiplicity and order. -/
theorem boundary_intersects_list_equiv (df_intersections : List XRow)
    (contextual_identifier : String) :
    (boundary_intersects_list df_intersections contextual_identifier
        XRow.admin_id).Nodup ∧
    ∀ q, q ∈ boundary_intersects_list df_intersections contextual_identifier
            XRow.admin_id ↔
         q ∈ boundary_intersects_list_orig df_intersections contextual_identifier := by
  refine ⟨List.nodup_dedup _, fun q => ?_⟩
  simp [boundary_intersects_list, boundary_intersects_list_orig]

/-- A region row as selected by `recombine_ecoregions`' SQL query
(`SELECT contextual_identifier, wikidata_id, source, common_name,
part_of_identifiers, x, y FROM ecoregions_m UNION ... FROM ecoregions_p`).
The coordinate columns are floating-point in the source and pass through
`recombine_ecoregions` untouched; they are carried as rationals. -/
structure RRow where
  contextual_identifier : String
  wikidata_id : Option String
  source : String
  common_name : String
  part_of_identifiers : Option String
  x : ℚ
  y : ℚ
deriving DecidableEq

/-- An assembled output record of `recombine_ecoregions`. -/
structure EcoFinalRow where
  contextual_identifier : String
  wikidata_id : Option String
  source : String
  common_name : String
  part_of_identifiers : Option (List String)
  x : ℚ
  y : ℚ
  admin_intersects : List String
  country_intersects : List String
deriving DecidableEq

/-- `recombine_ecoregions`: for every region row of the union query's
result, parse `part_of_identifiers` and attach the deduplicated
`admin_intersects` and `country_intersects` lists looked up in the
intersections table by the row's `contextual_identifier`:

    df_ecoregions['part_of_identifiers'] = df_ecoregions['part_of_identifiers']
        .apply(lambda x: x.split(';') if x is not None else x)
    df_ecoregions['admin_intersects'] = df_ecoregions['contextual_identifier']
        .apply(lambda x: boundary_intersects_list(x, "admin_id"))
    df_ecoregions['country_intersects'] = df_ecoregions['contextual_identifier']
        .apply(lambda x: boundary_intersects_list(x, "country_id")) -/
def recombine_ecoregions (df_intersections : List XRow)
    (df_ecoregions : List RRow) : List EcoFinalRow :=
  df_ecoregions.map fun r =>
    { contextual_identifier := r.contextual_identifier
      wikidata_id := r.wikidata_id
      source := r.source
      common_name := r.common_name
      part_of_identifiers := parse_part_of r.part_of_identifiers
      x := r.x
      y := r.y
      admin_intersects :=
        boundary_intersects_list df_intersections r.contextual_identifier XRow.admin_id
      country_intersects :=
        boundary_intersects_list df_intersections r.contextual_identifier XRow.country_id }

/-- C2: every assembled record's `admin_intersects` is the set of admin
identifiers of the intersection rows sharing its `contextual_identifier`,
each appearing at most once, and `country_intersects` is the analogous set
of country identifiers. -/
theorem recombine_ecoregions_intersects (df_intersections : List XRow)
    (df_ecoregions : List RRow) (out : EcoFinalRow)
    (hout : out ∈ recombine_ecoregions df_intersections df_ecoregions) :
    (out.admin_intersects.Nodup ∧
      ∀ q, q ∈ out.admin_intersects ↔
        ∃ t ∈ df_intersections,
          t.contextual_identifier = out.contextual_identifier ∧ t.admin_id = q) ∧
    (out.country_intersects.Nodup ∧
      ∀ q, q ∈ out.country_intersects ↔
        ∃ t ∈ df_intersections,
          t.contextual_identifier = out.contextual_identifier ∧ t.country_id = q) := by
  rcases List.mem_map.mp hout with ⟨r, _, rfl⟩
  refine ⟨⟨List.nodup_dedup _, fun q => ?_⟩, ⟨List.nodup_dedup _, fun q => ?_⟩⟩ <;>
    · simp only [boundary_intersects_list, List.mem_dedup, List.mem_map,
        List.mem_filter, decide_eq_true_eq]
      constructor
      · rintro ⟨t, ⟨ht, hc⟩, hq⟩
        exact ⟨t, ht, hc, hq⟩
      · rintro ⟨t, ht, hc, hq⟩
        exact ⟨t, ⟨ht, hc⟩, hq⟩

/-- A one-row intersections table and a one-row region table for the C2
witness. -/
def oneRowTable : List XRow :=
  [{ boundary_name := "Colorado", admin_id := "Q1261", country_id := "Q30",
     contextual_identifier := "US_L3CODE:21" }]

/-- The single region row for the C2 witness. -/
def oneRegion : List RRow :=
  [{ contextual_identifier := "US_L3CODE:21", wikidata_id := some "Q67197232",
     source := "US_Eco_Level3", common_name := "Southern Rockies",
     part_of_identifiers := some "NA_L1CODE:6", x := 0, y := 0 }]

/-- The assembled record `recombine_ecoregions oneRowTable oneRegion`
produces. -/
def oneAssembled : EcoFinalRow :=
  { contextual_identifier := "US_L3CODE:21", wikidata_id := some "Q67197232",
    source := "US_Eco_Level3", common_name := "Southern Rockies",
    part_of_identifiers := some ["NA_L1CODE:6"], x := 0, y := 0,
    admin_intersects := ["Q1261"], country_intersects := ["Q30"] }

/-! ## Schema normalization of the NA level-3 source

The original notebook's normalization cell builds the composite key of the
`NA_CEC_Eco_Level3` records as

    na_er3["contextual_identifier"] = na_er3.apply(
        lambda row: f"NA_L1CODE:{row.NA_L3CODE}", axis=1)

whereas the refactored `clean_synth_df` builds it as

    na_er3["contextual_identifier"] = na_er3.apply(
        lambda row: f"NA_L3CODE:{row.NA_L3CODE}", axis=1)

All other levels use their own level's tag with their own level's code in
both versions (`NA_L1CODE:{NA_L1CODE}`, `NA_L2CODE:{NA_L2CODE}`,
`US_L3CODE:{US_L3CODE}`, `US_L4CODE:{US_L4CODE}`). -/

/-- The level-identifying columns of a raw `NA_CEC_Eco_Level3` record. -/
structure NaEr3Row where
  NA_L1CODE : String
  NA_L2CODE : String
  NA_L3CODE : String
  NA_L3NAME : String
deriving DecidableEq

/-- `contextual_identifier` of an NA level-3 record in the original
notebook cell: the `NA_L1CODE` tag prefixed to the record's `NA_L3CODE`
value. -/
def na_er3_contextual_identifier_orig (row : NaEr3Row) : String :=
  "NA_L1CODE:" ++ row.NA_L3CODE

/-- `contextual_identifier` of an NA level-3 record in the refactored
`clean_synth_df`: the `NA_L3CODE` tag prefixed to the record's `NA_L3CODE`
value. -/
def clean_synth_df_na_er3_contextual_identifier (row : NaEr3Row) : String :=
  "NA_L3CODE:" ++ row.NA_L3CODE

/-- C3: at the NA level-3 record with `NA_L3CODE = "9.4.5"` (Cross Timbers;
the notebook's own displayed output shows it as `NA_L1CODE:9.4.5`), the
original normalization cell produces `NA_L1CODE:9.4.5`, not the
`NA_L3CODE:9.4.5` that the claim — and the repository's refactored
`clean_synth_df` — prescribe. -/
theorem na_er3_contextual_identifier_bug :
    na_er3_contextual_identifier_orig
        { NA_L1CODE := "9", NA_L2CODE := "9.4", NA_L3CODE := "9.4.5",
          NA_L3NAME := "Cross Timbers" } = "NA_L1CODE:9.4.5" ∧
    clean_synth_df_na_er3_contextual_identifier
        { NA_L1CODE := "9", NA_L2CODE := "9.4", NA_L3CODE := "9.4.5",
          NA_L3NAME := "Cross Timbers" } = "NA_L3CODE:9.4.5" ∧
    ("NA_L1CODE:9.4.5" : String) ≠ "NA_L3CODE:9.4.5" := by
  refine ⟨rfl, rfl, by decide⟩

/-! ## Identifier resolution for the ecoregion records
(`prepare_wikidata_info`)

    def prepare_wikidata_info(combined_source):
        combined_source.reset_index(level=0, inplace=True)
        combined_source["x"] = combined_source.centroid.x
        combined_source["y"] = combined_source.centroid.y
        combined_source['common_name'] = combined_source['common_name'].str.title()
        combined_source["wikidata_id"] = combined_source.loc[
            combined_source.source.isin(["US_Eco_Level3","US_Eco_Level4"])
        ].apply(lambda row: lookup_wd(row["contextual_identifier"]), axis=1)
        combined_source = combined_source.where(pd.notnull(combined_source), None)
        return combined_source

The `wikidata_id` column is computed only over the rows whose `source` is in
`["US_Eco_Level3", "US_Eco_Level4"]`; re-aligning that partial column to the
whole frame leaves `NaN` on every other row, which the final
`where(pd.notnull, None)` turns into `None`.  The centroid and title-casing
steps touch only the coordinate and `common_name` columns and are not
modelled; `lookup_wd` lives in the repository's absent `functions.py` and is
taken as an opaque optional-result lookup. -/

/-- An ecoregion row entering `prepare_wikidata_info` (after the dissolve
and `reset_index`). -/
structure SRow where
  contextual_identifier : String
  source : String
  common_name : String
  wikidata_id : Option String
deriving DecidableEq

/-- `prepare_wikidata_info`'s `wikidata_id` assignment: rows whose `source`
is `US_Eco_Level3` or `US_Eco_Level4` get the result of the external lookup
on their `contextual_identifier`; every other row's `wikidata_id` is
`None`. -/
def prepare_wikidata_info (lookup_wd : String → Option String)
    (combined_source : List SRow) : List SRow :=
  combined_source.map fun r =>
    { r with
      wikidata_id :=
        if r.source = "US_Eco_Level3" ∨ r.source = "US_Eco_Level4" then
          lookup_wd r.contextual_identifier
        else none }

/-- C4: for every record whose source dataset is neither `US_Eco_Level3` nor
`US_Eco_Level4`, the assembled `wikidata_id` is `None` — and this holds for
every possible lookup function, so no lookup result can reach such a
record. -/
theorem prepare_wikidata_info_only_us (lookup_wd : String → Option String)
    (combined_source : List SRow) (r : SRow)
    (hr : r ∈ prepare_wikidata_info lookup_wd combined_source)
    (h3 : r.source ≠ "US_Eco_Level3") (h4 : r.source ≠ "US_Eco_Level4") :
    r.wikidata_id = none := by
  rcases List.mem_map.mp hr with ⟨s, _, rfl⟩
  simp only at h3 h4 ⊢
  rw [if_neg]
  rintro (h | h)
  · exact h3 h
  · exact h4 h

/-- A one-row NA level-1 input for the C4 witness. -/
def naRegionRow : SRow :=
  { contextual_identifier := "NA_L1CODE:5", source := "NA_CEC_Eco_Level1",
    common_name := "Northern Forests", wikidata_id := none }

/-- Witness for C4: even under a lookup that answers every query, the
NA level-1 record comes out of `prepare_wikidata_info` with no
`wikidata_id`. -/
theorem prepare_wikidata_info_only_us_witness :
    naRegionRow.wikidata_id = none :=
  prepare_wikidata_info_only_us (fun _ => some "Q99") [naRegionRow] naRegionRow
    (by decide) (by decide) (by decide)

/-! ## Dataset combiner for the political boundaries

From the boundaries notebook:

    boundaries = gpd.GeoDataFrame(pd.concat(
        [ca_states, us_states, mx_states, us_counties],
        ignore_index=True, sort=False))
    boundaries.crs = us_states.crs
    boundaries = boundaries.where(pd.notnull(boundaries), None)

The four normalized sources do not share every column: the Canadian source
keeps no `identifier` column and the US county source keeps no
`abbreviation` column (its rename of the absent `STUSPS` column is a no-op).
`pd.concat` fills a column absent from a source with the `NaN` sentinel, and
the final `where(pd.notnull(...), None)` replaces every null cell (`NaN` or
`None`) of the combined frame by `None`. -/

/-- A cell value of the combined boundaries frame: a real string value, the
pandas `NaN` missing-value sentinel, or an explicit `None`. -/
inductive PVal
  | vStr : String → PVal
  | vNaN : PVal
  | vNone : PVal
deriving DecidableEq

/-- `pd.notnull` on one cell: `False` on both `NaN` and `None`. -/
def pd_notnull : PVal → Bool
  | .vStr _ => true
  | .vNaN => false
  | .vNone => false

/-- `frame.where(pd.notnull(frame), None)` on one cell. -/
def where_notnull (v : PVal) : PVal :=
  if pd_notnull v then v else .vNone

/-- A normalized Canadian province record: `name`, `abbreviation`,
`country` — no `identifier` column in this source. -/
structure CaStateRow where
  name : PVal
  abbreviation : PVal
  country : PVal
deriving DecidableEq

/-- A normalized US state or Mexican state record: full common schema. -/
structure StateRow where
  name : PVal
  identifier : PVal
  abbreviation : PVal
  country : PVal
deriving DecidableEq

/-- A normalized US county record: `name`, `identifier`, `country` — no
`abbreviation` column in this source. -/
structure UsCountyRow where
  name : PVal
  identifier : PVal
  country : PVal
deriving DecidableEq

/-- A row of the combined `boundaries` frame (geometry aside). -/
structure BoundaryRow where
  name : PVal
  identifier : PVal
  abbreviation : PVal
  country : PVal
deriving DecidableEq

/-- `pd.concat` alignment of a Canadian row into the combined schema: the
absent `identifier` column is filled with `NaN`. -/
def concat_ca (r : CaStateRow) : BoundaryRow :=
  { name := r.name, identifier := .vNaN, abbreviation := r.abbreviation,
    country := r.country }

/-- `pd.concat` alignment of a US/Mexican state row (all columns present). -/
def concat_state (r : StateRow) : BoundaryRow :=
  { name := r.name, identifier := r.identifier, abbreviation := r.abbreviation,
    country := r.country }

/-- `pd.concat` alignment of a US county row: the absent `abbreviation`
column is filled with `NaN`. -/
def concat_us_county (r : UsCountyRow) : BoundaryRow :=
  { name := r.name, identifier := r.identifier, abbreviation := .vNaN,
    country := r.country }

/-- `where(pd.notnull, None)` applied to a whole combined row. -/
def where_notnull_row (r : BoundaryRow) : BoundaryRow :=
  { name := where_notnull r.name, identifier := where_notnull r.identifier,
    abbreviation := where_notnull r.abbreviation,
    country := where_notnull r.country }

/-- The combined `boundaries` frame: concatenate the four sources in the
notebook's order and replace every null cell by `None`. -/
def boundaries_combine (ca_states : List CaStateRow) (us_states : List StateRow)
    (mx_states : List StateRow) (us_counties : List UsCountyRow) :
    List BoundaryRow :=
  ((ca_states.map concat_ca ++ us_states.map concat_state ++
    mx_states.map concat_state ++ us_counties.map concat_us_county).map
    where_notnull_row)

theorem where_notnull_ne_nan (v : PVal) : where_notnull v ≠ .vNaN := by
  cases v <;> simp [where_notnull, pd_notnull]

/-- C10: no cell of the combined `boundaries` frame is the `NaN` sentinel,
and the columns absent from a record's source schema — `identifier` for
Canadian provinces, `abbreviation` for US counties — are the explicit
`None` in the combined frame. -/
theorem boundaries_combine_no_nan (ca_states : List CaStateRow)
    (us_states : List StateRow) (mx_states : List StateRow)
    (us_counties : List UsCountyRow) :
    (∀ r ∈ boundaries_combine ca_states us_states mx_states us_counties,
      r.name ≠ .vNaN ∧ r.identifier ≠ .vNaN ∧ r.abbreviation ≠ .vNaN ∧
      r.country ≠ .vNaN) ∧
    (∀ c ∈ ca_states,
      where_notnull_row (concat_ca c) ∈
        boundaries_combine ca_states us_states mx_states us_counties ∧
      (where_notnull_row (concat_ca c)).identifier = .vNone) ∧
    (∀ u ∈ us_counties,
      where_notnull_row (concat_us_county u) ∈
        boundaries_combine ca_states us_states mx_states us_counties ∧
      (where_notnull_row (concat_us_county u)).abbreviation = .vNone) := by
  refine ⟨fun r hr => ?_, fun c hc => ⟨?_, rfl⟩, fun u hu => ⟨?_, rfl⟩⟩
  · rcases List.mem_map.mp hr with ⟨s, _, rfl⟩
    exact ⟨where_notnull_ne_nan _, where_notnull_ne_nan _, where_notnull_ne_nan _,
      where_notnull_ne_nan _⟩
  · exact List.mem_map.mpr ⟨concat_ca c, by
      simp only [List.mem_append, List.mem_map]
      exact Or.inl (Or.inl (Or.inl ⟨c, hc, rfl⟩)), rfl⟩
  · exact List.mem_map.mpr ⟨concat_us_county u, by
      simp only [List.mem_append, List.mem_map]
      exact Or.inr ⟨u, hu, rfl⟩, rfl⟩

/-- Witness for C2 at a concrete table and region. -/
theorem recombine_ecoregions_intersects_witness :
    ((oneAssembled.admin_intersects.Nodup ∧
      ∀ q, q ∈ oneAssembled.admin_intersects ↔
        ∃ t ∈ oneRowTable,
          t.contextual_identifier = oneAssembled.contextual_identifier ∧
          t.admin_id = q) ∧
    (oneAssembled.country_intersects.Nodup ∧
      ∀ q, q ∈ oneAssembled.country_intersects ↔
        ∃ t ∈ oneRowTable,
          t.contextual_identifier = oneAssembled.contextual_identifier ∧
          t.country_id = q)) :=
  recombine_ecoregions_intersects oneRowTable oneRegion oneAssembled (by decide)

end Wdbots

namespace Wdbots

/-- C1 counterexample: it is not the case that every input record appears in
exactly one of the two subsets produced by `prep_source_for_pg`.  A record
whose `geom_type` is `"Point"` survives both drops and appears in both
subsets. -/
theorem prep_source_for_pg_not_exactly_one :
    ¬ (∀ (rows : List PgRow), ∀ r ∈ rows,
        (r ∈ (prep_source_for_pg rows).1 ∧ r ∉ (prep_source_for_pg rows).2) ∨
        (r ∉ (prep_source_for_pg rows).1 ∧ r ∈ (prep_source_for_pg rows).2)) := by
  intro h
  rcases h [pointRow] pointRow (by simp) with ⟨_, h2⟩ | ⟨h1, _⟩
  · exact h2 (by decide)
  · exact h1 (by decide)

/-- C1 (amended): every input record whose geometry type is `"Polygon"` or
`"MultiPolygon"` appears in exactly one of the two output subsets of
`prep_source_for_pg`; a record of any other geometry type is not dropped but
appears in both subsets. -/
theorem prep_source_for_pg_partitions (rows : List PgRow) (r : PgRow)
    (hr : r ∈ rows) :
    ((r.geom_type = "Polygon" ∨ r.geom_type = "MultiPolygon") →
      ((r ∈ (prep_source_for_pg rows).1 ∧ r ∉ (prep_source_for_pg rows).2) ∨
       (r ∉ (prep_source_for_pg rows).1 ∧ r ∈ (prep_source_for_pg rows).2))) ∧
    (r.geom_type ≠ "Polygon" → r.geom_type ≠ "MultiPolygon" →
      r ∈ (prep_source_for_pg rows).1 ∧ r ∈ (prep_source_for_pg rows).2) := by
  constructor
  · rintro (hp | hm)
    · right
      constructor
      · simp [prep_source_for_pg, List.mem_filter, hp]
      · simp only [prep_source_for_pg, List.mem_filter]
        exact ⟨hr, by simp [hp]⟩
    · left
      constructor
      · simp only [prep_source_for_pg, List.mem_filter]
        exact ⟨hr, by simp [hm]⟩
      · simp [prep_source_for_pg, List.mem_filter, hm]
  · intro hp hm
    constructor
    · simp only [prep_source_for_pg, List.mem_filter]
      exact ⟨hr, by simpa using hp⟩
    · simp only [prep_source_for_pg, List.mem_filter]
      exact ⟨hr, by simpa using hm⟩

/-- Witness for the amended C1 theorem at concrete inputs. -/
theorem prep_source_for_pg_partitions_witness :
    (pointRow ∈ [pointRow] ∧
      ((pointRow.geom_type = "Polygon" ∨ pointRow.geom_type = "MultiPolygon") →
        ((pointRow ∈ (prep_source_for_pg [pointRow]).1 ∧
          pointRow ∉ (prep_source_for_pg [pointRow]).2) ∨
         (pointRow ∉ (prep_source_for_pg [pointRow]).1 ∧
          pointRow ∈ (prep_source_for_pg [pointRow]).2))) ∧
      (pointRow.geom_type ≠ "Polygon" → pointRow.geom_type ≠ "MultiPolygon" →
        pointRow ∈ (prep_source_for_pg [pointRow]).1 ∧
        pointRow ∈ (prep_source_for_pg [pointRow]).2)) :=
  ⟨by simp, prep_source_for_pg_partitions [pointRow] pointRow (by simp)⟩

end Wdbots
